import Mathlib

/-!
Shallow embedding of the TightECS engine (tecs.h, canonical revision) in Lean 4.

Modelling conventions, each mirroring the C++ source:

* The source's `u32` is `unsigned long`, which is 4 bytes on the reference
  platform (LLP64: the test suite's memory-footprint REQUIREs, e.g.
  `sizeof(Ecs<ComponentTypes,128>) == 6192 = 48 + 128*48`, hold exactly for
  4-byte `unsigned long`, and the same tests add the 4-byte `Component1`,
  which must pass `static_assert(sizeof(T) >= sizeof(ChunkEmptyEntry))`).
  Counters (`liveEntities`, `aliveComponents`, `nextFreeEntity`, arena cursor)
  are modelled as `Nat`; 32-bit wraparound is unreachable in every state any
  theorem below evaluates, so no `% 2^32` is written on them.  The bit-fields
  of `EntityHandleParts` (`alive:1`, `generation:3`, `id:28`) do overflow in
  reachable states, so writes to them reduce `% 2`, `% 8`, `% 2^28`.
* A raw 4-byte read of an entity slot (the free-list pop in `newEntity` reads
  `((ChunkEmptyEntry*)&entities[i])->nextFree`) sees the packed bit-field word
  `alive + 2*generation + 16*id`: the three fields fill the 32-bit unit
  exactly, so the whole word is determined by them.
* Arena memory is modelled as zero-initialized (the repository's test harness
  backs the arena with `std::make_unique<char[]>`, which value-initializes);
  the engine itself never recycles arena memory, so a freshly allocated chunk
  is an all-zero map.
* Pointer-typed chunk tables (`sparseIds`, `denseData`, `denseEntities`) become
  `Nat -> Option chunk`; `none` is a null chunk pointer.  Reading or writing
  through a null chunk pointer is undefined behaviour in the C++; the model
  totalizes such accesses (reads give zeroes, writes materialize a chunk), and
  every theorem below only evaluates these operations in states where the
  accessed chunks are allocated.
* Component data bytes are `Nat -> Nat` maps from byte offset to byte value;
  the intrusive free-list link (`ChunkEmptyEntry`, one 4-byte u32) is a
  4-byte little-endian word, written and read with `writeBytesLE` /
  `readBytesLE`.
* `TECS_ASSERT` aborts in the reference configuration (the test harness maps
  it to `REQUIRE`); operations whose assertion can fire return `Except`.
-/

namespace Tecs

/-- Pointwise update of a map, used for array element assignment. -/
def upd {α : Type} (f : Nat → α) (i : Nat) (v : α) : Nat → α :=
  fun j => if j = i then v else f j

/-- Little-endian read of `n` bytes starting at offset `o` of byte map `m`. -/
def readBytesLE (m : Nat → Nat) (o : Nat) : Nat → Nat
  | 0 => 0
  | n + 1 => m o + 256 * readBytesLE m (o + 1) n

/-- Little-endian write of the `n` low bytes of `v` at offset `o` of `m`. -/
def writeBytesLE (m : Nat → Nat) (o v n : Nat) : Nat → Nat :=
  fun i => if o ≤ i ∧ i < o + n then v / 256 ^ (i - o) % 256 else m i

/-- Errors surfaced where the C++ asserts, aborts or throws. -/
inductive EcsError where
  | arenaOverflow
  | capacityExceeded
  | badEntityHandle
  | componentTooSmall
deriving DecidableEq, Repr

/-- ArenaAllocator: `base`/`current` pointers become offsets from `base`, so
the struct carries the buffer size `total` and the cursor offset `current`. -/
structure ArenaAllocator where
  total : Nat
  current : Nat
deriving DecidableEq, Repr

/-- ArenaAllocator's two-argument constructor: cursor starts at `base`. -/
def ArenaAllocator.init (size : Nat) : ArenaAllocator := ⟨size, 0⟩

/-- ArenaAllocator::alloc for a request of `size` bytes (the C++ computes
`size = sizeof(T) * n`); `TECS_ASSERT(current + size < base + total)` becomes
the guard, failing the request instead of advancing past the buffer. -/
def ArenaAllocator.alloc (a : ArenaAllocator) (size : Nat) :
    Except EcsError ArenaAllocator :=
  if a.current + size < a.total then
    .ok { a with current := a.current + size }
  else
    .error .arenaOverflow

/-- EntityHandleParts: bit-fields `alive:1`, `generation:3`, `id:28`. -/
structure EntityHandle where
  alive : Nat
  generation : Nat
  id : Nat
deriving DecidableEq, Repr

/-- The all-zero handle, the content of value-initialized entity memory. -/
def zeroHandle : EntityHandle := ⟨0, 0, 0⟩

/-- The packed 4-byte word of an entity slot as `ChunkEmptyEntry::nextFree`
reads it: alive in bit 0, generation in bits 1..3, id in bits 4..31. -/
def EntityHandle.word (h : EntityHandle) : Nat :=
  h.alive + 2 * h.generation + 16 * h.id

/-- static constexpr u32 MaxComponentChunks = 32. -/
def MaxComponentChunks : Nat := 32

/-- static constexpr u32 componentsPerChunk = 128 (an Ecs class constant,
used only by isComponentHandleValid in this revision). -/
def componentsPerChunk : Nat := 128

/-- ComponentContainer.  `freeComponentHandle` is the `nextFree` field of the
embedded `ChunkEmptyEntry` head; the three chunk-pointer arrays become maps
from chunk index to an optional chunk. -/
structure ComponentContainer where
  idChunkSize : Nat
  componentSize : Nat
  chunkSize : Nat
  aliveComponents : Nat
  freeComponentHandle : Nat
  sparseIds : Nat → Option (Nat → Nat)
  denseData : Nat → Option (Nat → Nat)
  denseEntities : Nat → Option (Nat → EntityHandle)

/-- A default-constructed container: componentSize 0 marks it unused. -/
def emptyContainer : ComponentContainer :=
  { idChunkSize := 256, componentSize := 0, chunkSize := 0,
    aliveComponents := 0, freeComponentHandle := 0,
    sparseIds := fun _ => none, denseData := fun _ => none,
    denseEntities := fun _ => none }

/-- Ecs state: the entity table plus the per-type containers.  `entities` is
the arena-allocated `Entity*` array (an Entity is just its handle); slot 0 is
reserved.  `maxComponents` is the MaxComponents_ template argument. -/
structure EcsState where
  maxEntities : Nat
  maxComponents : Nat
  nextFreeEntity : Nat
  liveEntities : Nat
  entities : Nat → EntityHandle
  containers : Nat → ComponentContainer

/-- Ecs::init over a fresh arena: zeroed entity table, default containers,
nextFreeEntity = 0, liveEntities = 0. -/
def Ecs.init (maxEntities maxComponents : Nat) : EcsState :=
  { maxEntities, maxComponents, nextFreeEntity := 0, liveEntities := 0,
    entities := fun _ => zeroHandle, containers := fun _ => emptyContainer }

/-- Store container `c` at type id `ty` (writes through the `containers[ty]`
reference). -/
def EcsState.setContainer (s : EcsState) (ty : Nat) (c : ComponentContainer) :
    EcsState :=
  { s with containers := upd s.containers ty c }

/-- Ecs::newEntity.  The free-list pop reads the slot's raw word through
`(ChunkEmptyEntry*)&entities[nextFreeEntity]`; the chosen slot is then
value-initialized (`e = {}`) — the subsequent `e.handle = e.handle` in the
source is a self-assignment, so the saved `prevHandle` (and in particular the
slot's generation) is discarded — and id/alive are set.  The bump path's
`TECS_ASSERT(newId <= maxEntities)` becomes a capacity error. -/
def Ecs.newEntity (s : EcsState) : Except EcsError (EntityHandle × EcsState) :=
  if s.nextFreeEntity > 0 then
    let newId := s.nextFreeEntity
    let nf := (s.entities newId).word
    let h : EntityHandle := ⟨1, 0, newId % 2 ^ 28⟩
    .ok (h, { s with nextFreeEntity := nf, liveEntities := s.liveEntities + 1,
                     entities := upd s.entities newId h })
  else
    let newId := s.liveEntities + 1
    if newId ≤ s.maxEntities then
      let h : EntityHandle := ⟨1, 0, newId % 2 ^ 28⟩
      .ok (h, { s with liveEntities := newId, entities := upd s.entities newId h })
    else
      .error .capacityExceeded

/-- Ecs::isEntityAlive: reads the slot's alive bit, ignoring generation. -/
def Ecs.isEntityAlive (s : EcsState) (h : EntityHandle) : Bool :=
  (s.entities h.id).alive != 0

/-- Ecs::isEntityHandleValid: alive and the slot's generation matches. -/
def Ecs.isEntityHandleValid (s : EcsState) (h : EntityHandle) : Bool :=
  Ecs.isEntityAlive s h && ((s.entities h.id).generation == h.generation)

/-- Ecs::isComponentHandleValid: `0 < handle` and
`handle <= componentsPerChunk * MaxComponentChunks` (= 4096). -/
def isComponentHandleValid (handle : Nat) : Bool :=
  0 < handle && handle ≤ componentsPerChunk * MaxComponentChunks

/-- Read `denseEntities[i / chunkSize][i % chunkSize]`.  A read through a null
chunk pointer (UB in the C++) is totalized to the zero handle. -/
def ComponentContainer.denseEntityGet (c : ComponentContainer) (i : Nat) :
    EntityHandle :=
  ((c.denseEntities (i / c.chunkSize)).getD fun _ => zeroHandle) (i % c.chunkSize)

/-- Write `denseEntities[i / chunkSize][i % chunkSize] = v`.  A write through
a null chunk pointer (UB in the C++) materializes a zeroed chunk. -/
def ComponentContainer.denseEntitySet (c : ComponentContainer) (i : Nat)
    (v : EntityHandle) : ComponentContainer :=
  let ci := i / c.chunkSize
  let f := (c.denseEntities ci).getD fun _ => zeroHandle
  { c with denseEntities := upd c.denseEntities ci (some (upd f (i % c.chunkSize) v)) }

/-- Write `sparseIds[sIdx][dIdx] = v` (chunk presence is the caller's
responsibility in the C++; a null chunk is totalized to a zeroed one). -/
def ComponentContainer.setSparse (c : ComponentContainer) (sIdx dIdx v : Nat) :
    ComponentContainer :=
  let f := (c.sparseIds sIdx).getD fun _ => 0
  { c with sparseIds := upd c.sparseIds sIdx (some (upd f dIdx v)) }

/-- The byte map of dense-data chunk `ci` (zeroes for a null chunk). -/
def ComponentContainer.dataChunk (c : ComponentContainer) (ci : Nat) : Nat → Nat :=
  (c.denseData ci).getD fun _ => 0

/-- Ecs::pushDenseEntity: increments aliveComponents, then records the owning
entity at dense index `aliveComponents` (the incremented value). -/
def ComponentContainer.pushDenseEntity (c : ComponentContainer)
    (e : EntityHandle) : ComponentContainer :=
  let c' := { c with aliveComponents := c.aliveComponents + 1 }
  c'.denseEntitySet c'.aliveComponents e

/-- Ecs::accessComponentData's allocation effect: if the dense-data chunk for
`componentHandle` is null, allocate it together with the matching
dense-entities chunk.  The returned pointer is
`denseData[h / chunkSize] + (h % chunkSize) * componentSize`, a function of
the container and the handle, so reference identity is captured by the handle
and the data offset `componentDataOffset`. -/
def ComponentContainer.accessComponentData (c : ComponentContainer)
    (componentHandle : Nat) : ComponentContainer :=
  let ci := componentHandle / c.chunkSize
  match c.denseData ci with
  | some _ => c
  | none =>
    { c with denseData := upd c.denseData ci (some fun _ => 0),
             denseEntities := upd c.denseEntities ci (some fun _ => zeroHandle) }

/-- The (chunk index, byte offset) a component handle's data lives at, as
computed by Ecs::accessComponentData. -/
def ComponentContainer.componentDataOffset (c : ComponentContainer)
    (componentHandle : Nat) : Nat × Nat :=
  (componentHandle / c.chunkSize, componentHandle % c.chunkSize * c.componentSize)

/-- Ecs::forwardFreeIndex: pops the component free list by reading the next
link, a 4-byte word (one u32) the matching push wrote at byte offset
`freeComponentHandle % chunkSize` of chunk `freeComponentHandle / chunkSize`
(the source omits the `* componentSize` scaling it uses elsewhere). -/
def ComponentContainer.forwardFreeIndex (c : ComponentContainer) :
    ComponentContainer :=
  let sIdx := c.freeComponentHandle / c.chunkSize
  let dIdx := c.freeComponentHandle % c.chunkSize
  { c with freeComponentHandle := readBytesLE (c.dataChunk sIdx) dIdx 4 }

/-- Ecs::replaceDenseComponentFreeIndex: overwrites the freed slot's dense
entity entry with the entry at index aliveComponents, stores the previous
free head as a 4-byte word (one u32) at byte offset `freeHandle % chunkSize`
of dense data chunk `freeHandle / chunkSize` (again unscaled by
componentSize), and makes `freeHandle` the new free head. -/
def ComponentContainer.replaceDenseComponentFreeIndex (c : ComponentContainer)
    (freeHandle : Nat) : ComponentContainer :=
  let sIdx := freeHandle / c.chunkSize
  let dIdx := freeHandle % c.chunkSize
  let last := c.denseEntityGet c.aliveComponents
  let c1 := c.denseEntitySet freeHandle last
  { c1 with
      denseData := upd c1.denseData sIdx
        (some (writeBytesLE (c1.dataChunk sIdx) dIdx c1.freeComponentHandle 4)),
      freeComponentHandle := freeHandle }

/-- Ecs::ensureComponentContainer's first-call initialization: fixes
componentSize, computes `chunkSize = 4096 / componentSize`, and zeroes the
top-level chunk-pointer arrays (all chunk pointers null). -/
def ComponentContainer.initialize (c : ComponentContainer) (compSize : Nat) :
    ComponentContainer :=
  { c with componentSize := compSize, chunkSize := 1024 * 4 / compSize,
           sparseIds := fun _ => none, denseData := fun _ => none,
           denseEntities := fun _ => none }

/-- Ecs::getExistingEntityComponentHandle: 0 for an unused container or a
missing sparse chunk, else the sparse entry for the entity id. -/
def Ecs.getExistingEntityComponentHandle (s : EcsState) (entity ty : Nat) : Nat :=
  let c := s.containers ty
  if c.componentSize = 0 then 0
  else
    match c.sparseIds (entity / c.idChunkSize) with
    | none => 0
    | some chunk => chunk (entity % c.idChunkSize)

/-- Ecs::entityHasComponent: valid entity and a nonzero sparse entry. -/
def Ecs.entityHasComponent (s : EcsState) (e : EntityHandle) (ty : Nat) : Bool :=
  if Ecs.isEntityHandleValid s e then
    decide (0 < Ecs.getExistingEntityComponentHandle s e.id ty)
  else false

/-- Ecs::getComponentAmount: aliveComponents, or 0 for an unused container. -/
def Ecs.getComponentAmount (s : EcsState) (ty : Nat) : Nat :=
  if (s.containers ty).componentSize = 0 then 0
  else (s.containers ty).aliveComponents

/-- Ecs::addComponent for component type id `ty` of byte size `compSize`
(`sizeof(T)`).  Returns the component handle the returned `T&` refers to.
The `static_assert(sizeof(T) >= sizeof(ChunkEmptyEntry))` (4 bytes, the size
of one u32) becomes a guard; an invalid entity handle throws.
Note the branch for an existing sparse chunk with a zero slot does NOT
consult the free list — only the chunk-allocating branch recycles. -/
def Ecs.addComponent (s : EcsState) (e : EntityHandle) (ty compSize : Nat) :
    Except EcsError (Nat × EcsState) :=
  if compSize < 4 then .error .componentTooSmall
  else if Ecs.isEntityHandleValid s e then
    let c0 := s.containers ty
    let c := if c0.componentSize = 0 then c0.initialize compSize else c0
    let s0 := if c0.componentSize = 0 then s.setContainer ty c else s
    let sIdx := e.id / c.idChunkSize
    let dIdx := e.id % c.idChunkSize
    match c.sparseIds sIdx with
    | none =>
      -- allocate the sparse id chunk (arena memory, zero-initialized per the
      -- modelling note; the source performs no memset here)
      let c1 := { c with sparseIds := upd c.sparseIds sIdx (some fun _ => 0) }
      if isComponentHandleValid c1.freeComponentHandle then
        let handle := c1.freeComponentHandle
        let c2 := c1.forwardFreeIndex
        let c3 := c2.setSparse sIdx dIdx handle
        let c4 := c3.accessComponentData handle
        let c5 := c4.pushDenseEntity e
        .ok (handle, s0.setContainer ty c5)
      else
        let handle := c1.aliveComponents + 1
        let c2 := c1.setSparse sIdx dIdx handle
        let c3 := c2.accessComponentData handle
        let c4 := c3.pushDenseEntity e
        .ok (handle, s0.setContainer ty c4)
    | some chunk =>
      let possible := chunk dIdx
      if isComponentHandleValid possible then
        -- entity already has the component: return it, mutating nothing
        -- (accessComponentData can only allocate if the chunk is null)
        match c.denseData (possible / c.chunkSize) with
        | some _ => .ok (possible, s0)
        | none => .ok (possible, s0.setContainer ty (c.accessComponentData possible))
      else
        let handle := c.aliveComponents + 1
        let c1 := c.setSparse sIdx dIdx handle
        let c2 := c1.accessComponentData handle
        let c3 := c2.pushDenseEntity e
        .ok (handle, s0.setContainer ty c3)
  else .error .badEntityHandle

/-- Ecs::removeComponentOfExistingEntity: assumes a pre-validated entity. -/
def Ecs.removeComponentOfExistingEntity (s : EcsState) (e : EntityHandle)
    (compTypeId : Nat) : EcsState :=
  let c := s.containers compTypeId
  if c.componentSize = 0 then s
  else
    let sIdx := e.id / c.idChunkSize
    let dIdx := e.id % c.idChunkSize
    match c.sparseIds sIdx with
    | none => s
    | some chunk =>
      let possible := chunk dIdx
      if isComponentHandleValid possible then
        let c1 := c.replaceDenseComponentFreeIndex possible
        let c2 := c1.setSparse sIdx dIdx 0
        let c3 := { c2 with aliveComponents := c2.aliveComponents - 1 }
        s.setContainer compTypeId c3
      else s

/-- Ecs::removeComponent (public): validated entry point. -/
def Ecs.removeComponent (s : EcsState) (e : EntityHandle) (compTypeId : Nat) :
    EcsState :=
  if Ecs.isEntityHandleValid s e then
    Ecs.removeComponentOfExistingEntity s e compTypeId
  else s

/-- The loop of Ecs::removeEntity over `containers` (indices
0..MaxComponents-1, each passed to removeComponentOfExistingEntity). -/
def Ecs.removeAllComponents (s : EcsState) (e : EntityHandle) : EcsState :=
  (List.range s.maxComponents).foldl
    (fun acc ty => Ecs.removeComponentOfExistingEntity acc e ty) s

/-- Ecs::removeEntity: no-op on an invalid handle; otherwise removes the
entity's components from every container, then stores the old free head in
the slot's id bit-field, bumps the generation (mod 8), clears alive, and
makes this id the free-list head. -/
def Ecs.removeEntity (s : EcsState) (entityHandle : EntityHandle) : EcsState :=
  if Ecs.isEntityHandleValid s entityHandle then
    let s1 := Ecs.removeAllComponents s entityHandle
    let e := s1.entities entityHandle.id
    let e' : EntityHandle :=
      { e with id := s1.nextFreeEntity % 2 ^ 28,
               generation := (e.generation + 1) % 8,
               alive := 0 }
    { s1 with entities := upd s1.entities entityHandle.id e',
              nextFreeEntity := entityHandle.id,
              liveEntities := s1.liveEntities - 1 }
  else s

/-- Ecs::findSmallestComponentContainer over the requested type-id list:
returns (type, count), keeping the first-encountered on ties exactly as the
recursive template does (`a.count < b.count ? a : b`, right-nested). -/
def Ecs.findSmallestComponentContainer (s : EcsState) : List Nat → Nat × Nat
  | [] => (0, 0)
  | [t] => (t, Ecs.getComponentAmount s t)
  | t :: ts =>
    let a := (t, Ecs.getComponentAmount s t)
    let b := Ecs.findSmallestComponentContainer s ts
    if a.2 < b.2 then a else b

/-- One visitor invocation of Ecs::forEach: `passedHandle` is the first
argument the code hands the visitor (`entities[i].handle` for dense loop
index `i`), `entityId` the id read from the driving container's dense entity
array — the entity whose component data references are passed. -/
structure ForEachCall where
  passedHandle : EntityHandle
  entityId : Nat
deriving DecidableEq, Repr

/-- Ecs::forEach over a list of requested type ids: walks the smallest
container's dense entity array from 1 to its count, skips zero entity ids and
entities missing any requested component, and records each invocation. -/
def Ecs.forEachCalls (s : EcsState) (types : List Nat) : List ForEachCall :=
  let smallest := Ecs.findSmallestComponentContainer s types
  let c := s.containers smallest.1
  (List.range' 1 smallest.2).filterMap fun i =>
    let entity := (c.denseEntityGet i).id
    if 0 < entity then
      if types.all fun t => Ecs.getExistingEntityComponentHandle s entity t != 0 then
        some ⟨s.entities i, entity⟩
      else none
    else none

/-- Models the caller storing a `componentSize`-byte value through the
reference `accessExistingComponentData(ty, entity)` returns (e.g.
`ecs.addComponent<Pos>(e) = v`): writes the value's bytes at the slot's data
offset.  This is client code, used only to set up concrete scenarios. -/
def Ecs.writeComponentData (s : EcsState) (ty entity v : Nat) : EcsState :=
  let c := s.containers ty
  let comp :=
    match c.sparseIds (entity / c.idChunkSize) with
    | some f => f (entity % c.idChunkSize)
    | none => 0
  let off := c.componentDataOffset comp
  let d' := upd c.denseData off.1
    (some (writeBytesLE (c.dataChunk off.1) off.2 v c.componentSize))
  s.setContainer ty { c with denseData := d' }

/-- Models the caller reading a component's value back through the same
reference: the little-endian value of the slot's `componentSize` bytes. -/
def Ecs.readComponentData (s : EcsState) (ty entity : Nat) : Nat :=
  let c := s.containers ty
  let comp :=
    match c.sparseIds (entity / c.idChunkSize) with
    | some f => f (entity % c.idChunkSize)
    | none => 0
  let off := c.componentDataOffset comp
  readBytesLE (c.dataChunk off.1) off.2 c.componentSize

/-- Trace helper: run newEntity, keeping the old state on failure. -/
def newEnt (s : EcsState) : EntityHandle × EcsState :=
  match Ecs.newEntity s with
  | .ok r => r
  | .error _ => (zeroHandle, s)

/-- Trace helper: run addComponent for its state effect. -/
def addComp (s : EcsState) (e : EntityHandle) (ty compSize : Nat) : EcsState :=
  match Ecs.addComponent s e ty compSize with
  | .ok r => r.2
  | .error _ => s

/-- Ecs::newEntity iterated: the sequencing of `n` consecutive calls,
failing as soon as one call fails. -/
def Ecs.newEntities (s : EcsState) : Nat → Except EcsError (List EntityHandle × EcsState)
  | 0 => .ok ([], s)
  | n + 1 =>
    match Ecs.newEntity s with
    | .error err => .error err
    | .ok (h, s1) =>
      match Ecs.newEntities s1 n with
      | .error err => .error err
      | .ok (hs, s2) => .ok (h :: hs, s2)

/-! ### Concrete scenario traces

Each trace is a straight-line client program against the engine, used by the
counterexample and code-observation theorems below. -/

/-- Scenario (entity reuse): capacity-3 Ecs; create one entity, remove it,
create again.  States and handles along the way. -/
def reuse0 : EcsState := Ecs.init 3 2

/-- First creation: handle alive=1, generation=0, id=1. -/
def reuseE1 : EntityHandle × EcsState := newEnt reuse0

/-- State after removing the first entity. -/
def reuseS2 : EcsState := Ecs.removeEntity reuseE1.2 reuseE1.1

/-- Second creation, reusing slot 1. -/
def reuseE3 : EntityHandle × EcsState := newEnt reuseS2

/-- Scenario (free-list corruption): capacity-3 Ecs; create e1 and e2,
remove e1, then create twice more. -/
def flc0 : EcsState := Ecs.init 3 2

/-- e1 = handle id 1. -/
def flcE1 : EntityHandle × EcsState := newEnt flc0

/-- e2 = handle id 2 (never removed in this scenario). -/
def flcE2 : EntityHandle × EcsState := newEnt flcE1.2

/-- State after removing e1 only. -/
def flcS3 : EcsState := Ecs.removeEntity flcE2.2 flcE1.1

/-- Third call: pops the freed slot 1 and reads its raw word as "next". -/
def flcE4 : EntityHandle × EcsState := newEnt flcS3

/-- Fourth call: pops the garbled next value. -/
def flcE5 : EntityHandle × EcsState := newEnt flcE4.2

/-- Scenario (spec section 8's two-entity forEach): create two entities and
give only the second one component type 2 (8 bytes). -/
def two0 : EcsState := Ecs.init 10 4

/-- First entity (gets no component). -/
def twoE1 : EntityHandle × EcsState := newEnt two0

/-- Second entity (gets component type 2). -/
def twoE2 : EntityHandle × EcsState := newEnt twoE1.2

/-- Final state: only the second entity has component 2. -/
def twoS : EcsState := addComp twoE2.2 twoE2.1 2 8

/-- State for the idempotent re-add scenario: the first entity of the
two-entity trace, already holding component type 1. -/
def readdS : EcsState := addComp twoE1.2 twoE1.1 1 8

/-- Scenario (iteration churn): four entities A..D; all get component 2; A,
B, C get component 1; remove A's component 1; add component 1 to D; remove
C's component 1.  D then owns components 1 and 2 but sits at dense index 3 of
container 1, beyond aliveComponents = 2. -/
def churnA : EntityHandle × EcsState := newEnt (Ecs.init 10 4)

/-- Entity B. -/
def churnB : EntityHandle × EcsState := newEnt churnA.2

/-- Entity C. -/
def churnC : EntityHandle × EcsState := newEnt churnB.2

/-- Entity D. -/
def churnD : EntityHandle × EcsState := newEnt churnC.2

/-- The churn trace's final state. -/
def churnS : EcsState :=
  let s1 := addComp churnD.2 churnA.1 2 8
  let s2 := addComp s1 churnB.1 2 8
  let s3 := addComp s2 churnC.1 2 8
  let s4 := addComp s3 churnD.1 2 8
  let s5 := addComp s4 churnA.1 1 8
  let s6 := addComp s5 churnB.1 1 8
  let s7 := addComp s6 churnC.1 1 8
  let s8 := Ecs.removeComponent s7 churnA.1 1
  let s9 := addComp s8 churnD.1 1 8
  Ecs.removeComponent s9 churnC.1 1

/-- Scenario (component removal effects): two entities with component 1
(8 bytes), both data values set to 257, before removing the first's. -/
def rmPre : EcsState :=
  let eA := newEnt (Ecs.init 10 4)
  let eB := newEnt eA.2
  let s1 := addComp eB.2 eA.1 1 8
  let s2 := addComp s1 eB.1 1 8
  let s3 := Ecs.writeComponentData s2 1 1 257
  Ecs.writeComponentData s3 1 2 257

/-- The component-removal scenario after removing entity 1's component 1. -/
def rmPost : EcsState := Ecs.removeComponent rmPre ⟨1, 0, 1⟩ 1

/-- Scenario (byte clobbering): nine entities, each with component 1
(8 bytes) holding value 257, before removing the ninth's component. -/
def clobPre : EcsState :=
  let s1 := (newEnt (Ecs.init 20 4)).2
  let s2 := (newEnt s1).2
  let s3 := (newEnt s2).2
  let s4 := (newEnt s3).2
  let s5 := (newEnt s4).2
  let s6 := (newEnt s5).2
  let s7 := (newEnt s6).2
  let s8 := (newEnt s7).2
  let s9 := (newEnt s8).2
  let w1 := Ecs.writeComponentData (addComp s9 ⟨1, 0, 1⟩ 1 8) 1 1 257
  let w2 := Ecs.writeComponentData (addComp w1 ⟨1, 0, 2⟩ 1 8) 1 2 257
  let w3 := Ecs.writeComponentData (addComp w2 ⟨1, 0, 3⟩ 1 8) 1 3 257
  let w4 := Ecs.writeComponentData (addComp w3 ⟨1, 0, 4⟩ 1 8) 1 4 257
  let w5 := Ecs.writeComponentData (addComp w4 ⟨1, 0, 5⟩ 1 8) 1 5 257
  let w6 := Ecs.writeComponentData (addComp w5 ⟨1, 0, 6⟩ 1 8) 1 6 257
  let w7 := Ecs.writeComponentData (addComp w6 ⟨1, 0, 7⟩ 1 8) 1 7 257
  let w8 := Ecs.writeComponentData (addComp w7 ⟨1, 0, 8⟩ 1 8) 1 8 257
  Ecs.writeComponentData (addComp w8 ⟨1, 0, 9⟩ 1 8) 1 9 257

/-- The byte-clobbering scenario after removing entity 9's component 1. -/
def clobPost : EcsState := Ecs.removeComponent clobPre ⟨1, 0, 9⟩ 1

/-! ### Helper lemmas -/

theorem upd_eq {α : Type} (f : Nat → α) (i : Nat) (v : α) : upd f i v i = v := by
  simp [upd]

theorem upd_ne {α : Type} (f : Nat → α) {i j : Nat} (v : α) (h : j ≠ i) :
    upd f i v j = f j := by
  simp [upd, h]

theorem setContainer_self (s : EcsState) (ty : Nat) (c : ComponentContainer) :
    (s.setContainer ty c).containers ty = c := upd_eq _ _ _

theorem setContainer_other (s : EcsState) {ty ty2 : Nat} (c : ComponentContainer)
    (h : ty2 ≠ ty) : (s.setContainer ty c).containers ty2 = s.containers ty2 :=
  upd_ne _ _ h

theorem denseEntityGet_denseEntitySet (c : ComponentContainer) (i j : Nat)
    (w : EntityHandle) :
    (c.denseEntitySet j w).denseEntityGet i
      = if i / c.chunkSize = j / c.chunkSize ∧ i % c.chunkSize = j % c.chunkSize
        then w else c.denseEntityGet i := by
  unfold ComponentContainer.denseEntitySet ComponentContainer.denseEntityGet
  dsimp only
  by_cases h1 : i / c.chunkSize = j / c.chunkSize
  · rw [h1, upd_eq]
    by_cases h2 : i % c.chunkSize = j % c.chunkSize
    · rw [h2, if_pos ⟨rfl, rfl⟩]
      simp [upd_eq]
    · rw [if_neg (fun hc => h2 hc.2)]
      simp [upd_ne _ _ h2]
  · rw [if_neg (fun hc => h1 hc.1), upd_ne _ _ h1]

theorem denseEntityGet_congr (c c' : ComponentContainer)
    (h1 : c'.denseEntities = c.denseEntities) (h2 : c'.chunkSize = c.chunkSize)
    (i : Nat) : c'.denseEntityGet i = c.denseEntityGet i := by
  unfold ComponentContainer.denseEntityGet
  rw [h1, h2]

theorem accessComponentData_denseData (c : ComponentContainer) (hdl ci : Nat)
    (d : Nat → Nat) (h : c.denseData ci = some d) :
    (c.accessComponentData hdl).denseData ci = some d := by
  simp only [ComponentContainer.accessComponentData]
  split
  · exact h
  · rename_i hm
    have hne : ci ≠ hdl / c.chunkSize := fun he => by rw [he, hm] at h; cases h
    simpa [upd_ne _ _ hne] using h

theorem pushDenseEntity_denseData (c : ComponentContainer) (e : EntityHandle) :
    (c.pushDenseEntity e).denseData = c.denseData := rfl

/-- Ecs::addComponent never rewrites an already-allocated dense-data chunk:
its only writes are chunk allocations (for null pointers), sparse entries,
dense entity entries and container bookkeeping. -/
theorem addComponent_data_frame (s : EcsState) (e : EntityHandle) (ty : Nat)
    (hcs : (s.containers ty).componentSize ≠ 0)
    (n h' : Nat) (s' : EcsState)
    (heq : Ecs.addComponent s e ty n = .ok (h', s'))
    (ci : Nat) (d : Nat → Nat) (hd : (s.containers ty).denseData ci = some d) :
    (s'.containers ty).denseData ci = some d := by
  unfold Ecs.addComponent at heq
  split at heq
  · cases heq
  split at heq
  case isFalse => cases heq
  simp only [if_neg hcs] at heq
  split at heq
  · split at heq
    · cases heq
      rw [setContainer_self, pushDenseEntity_denseData]
      exact accessComponentData_denseData _ _ _ _ hd
    · cases heq
      rw [setContainer_self, pushDenseEntity_denseData]
      exact accessComponentData_denseData _ _ _ _ hd
  · split at heq
    · split at heq
      · cases heq
        exact hd
      · cases heq
        rw [setContainer_self]
        exact accessComponentData_denseData _ _ _ _ hd
    · cases heq
      rw [setContainer_self, pushDenseEntity_denseData]
      exact accessComponentData_denseData _ _ _ _ hd

/-- From a state with an empty free list and `j` live entities, `n` further
newEntity calls all take the bump path and hand out ids `j+1 .. j+n`. -/
theorem newEntities_fresh (n : Nat) :
    ∀ (j : Nat) (s : EcsState), s.nextFreeEntity = 0 → s.liveEntities = j →
      j + n ≤ s.maxEntities → s.maxEntities < 2 ^ 28 →
      ∃ s', Ecs.newEntities s n
          = .ok ((List.range' (j + 1) n).map (fun i => ⟨1, 0, i⟩), s')
        ∧ s'.nextFreeEntity = 0 ∧ s'.liveEntities = j + n
        ∧ s'.maxEntities = s.maxEntities := by
  induction n with
  | zero => intro j s h1 h2 _ _; exact ⟨s, rfl, h1, by omega, rfl⟩
  | succ n ih =>
    intro j s h1 h2 h3 h4
    have hid : (j + 1) % 2 ^ 28 = j + 1 := Nat.mod_eq_of_lt (by omega)
    have hstep : Ecs.newEntity s = .ok (⟨1, 0, j + 1⟩,
        { s with liveEntities := j + 1,
                 entities := upd s.entities (j + 1) ⟨1, 0, j + 1⟩ }) := by
      unfold Ecs.newEntity
      rw [h1]
      simp only [h2, hid]
      rw [if_neg (by omega), if_pos (by omega)]
    obtain ⟨s', hrun, hnf, hlive, hmax⟩ := ih (j + 1)
      { s with liveEntities := j + 1,
               entities := upd s.entities (j + 1) ⟨1, 0, j + 1⟩ }
      h1 rfl (by simpa using by omega) (by simpa using h4)
    refine ⟨s', ?_, hnf, by omega, by simpa using hmax⟩
    rw [Ecs.newEntities, hstep]
    simp only [hrun, List.range'_succ, List.map_cons]

/-! ### Claim theorems -/

/-- Claim C1 (code bug evidence): create an entity, remove it, create again.
After the removal the stale handle is invalid, but the re-creating newEntity
resets the slot's generation to 0 (the source saves prevHandle and then
self-assigns `e.handle = e.handle` instead of restoring it), so the stale
handle validates again and the new handle compares equal to the old one —
against the claim that the stale handle stays invalid forever and the new
handle differs in generation. -/
theorem removedHandle_revalidates_on_reuse :
    reuseE1.1 = ⟨1, 0, 1⟩
    ∧ Ecs.isEntityHandleValid reuseS2 reuseE1.1 = false
    ∧ reuseE3.1 = reuseE1.1
    ∧ Ecs.isEntityHandleValid reuseE3.2 reuseE1.1 = true := by decide

/-- Claim C2 (code bug evidence): with two entities where only the second
has component 2, forEach over type 2 invokes the visitor exactly once and
with the right component data (entityId = 2), but the handle argument is
`entities[1].handle` — the dense loop index, i.e. the FIRST entity's handle
— not the second entity's handle as the claim requires. -/
theorem forEach_passes_wrong_handle :
    twoE1.1 = ⟨1, 0, 1⟩
    ∧ twoE2.1 = ⟨1, 0, 2⟩
    ∧ Ecs.forEachCalls twoS [2] = [⟨⟨1, 0, 1⟩, 2⟩]
    ∧ (⟨1, 0, 1⟩ : EntityHandle) ≠ twoE2.1 := by decide

/-- Claim C3 (code bug evidence): after component churn (add 1 to A,B,C;
remove A's; add 1 to D; remove C's — all four entities holding component 2
throughout), entity D possesses both requested components yet forEach over
types 1 and 2 visits only entity B: D was assigned C's still-referenced
dense slot (the slot-0 branch of addComponent skips free-list recycling) and
recorded at dense index 3, which falls outside aliveComponents = 2 after C's
removal. -/
theorem forEach_misses_entity_after_churn :
    churnD.1 = ⟨1, 0, 4⟩
    ∧ Ecs.entityHasComponent churnS churnD.1 1 = true
    ∧ Ecs.entityHasComponent churnS churnD.1 2 = true
    ∧ (Ecs.forEachCalls churnS [1, 2]).map ForEachCall.entityId = [2] := by decide

/-- Claim C4 (code bug evidence): create e1 and e2, remove only e1, then
create twice.  The first pop correctly reuses id 1, but the free-list link
is read as the slot's whole packed word (2 = generation 1 shifted into bit
1) instead of the id bit-field, so the next newEntity pops "free" id 2 and
returns a handle equal to the still-alive e2's. -/
theorem newEntity_reissues_alive_id :
    flcE2.1 = ⟨1, 0, 2⟩
    ∧ Ecs.isEntityAlive flcS3 flcE2.1 = true
    ∧ flcE4.1 = ⟨1, 0, 1⟩
    ∧ flcE4.2.nextFreeEntity = 2
    ∧ Ecs.isEntityAlive flcE4.2 flcE2.1 = true
    ∧ flcE5.1 = ⟨1, 0, 2⟩ := by decide

/-- Claim C5 (code bug evidence): after removing the entity in slot 1 the
slot's stored generation is 1, but the newEntity that reuses the slot
returns generation 0 — the slot is value-initialized and prevHandle is never
restored — against the claim that the returned handle carries the slot's
stored generation unchanged. -/
theorem newEntity_resets_generation :
    (reuseS2.entities 1).generation = 1
    ∧ reuseE3.1 = ⟨1, 0, 1⟩
    ∧ reuseE3.1.generation ≠ (reuseS2.entities 1).generation := by decide

/-- Claim C6: the arena cursor never leaves `[base, base+total]` (the cursor
is a Nat offset, so `base <= cursor` is inherent; construction starts it at
0) and every successful alloc keeps `cursor <= total`, while a request
larger than the remaining capacity fails with an arena-overflow error
instead of advancing the cursor. -/
theorem arena_alloc_cursor_bounds (size : Nat) (a : ArenaAllocator) :
    ((∀ t, (ArenaAllocator.init t).current = 0)
    ∧ (∀ a', a.alloc size = .ok a' → a'.current ≤ a'.total))
    ∧ (a.total - a.current < size → a.alloc size = .error .arenaOverflow) := by
  refine ⟨⟨fun _ => rfl, ?_⟩, ?_⟩
  · intro a' h
    unfold ArenaAllocator.alloc at h
    split at h
    · cases h; simp; omega
    · cases h
  · intro hsz
    unfold ArenaAllocator.alloc
    rw [if_neg (by omega)]

/-- Claim C7: from a fresh Ecs with capacity `M < 2^28`, the first `M`
newEntity calls all succeed and return handles with ids 1..M in order, and
the (M+1)-th call fails with a capacity-exceeded error. -/
theorem newEntity_capacity_boundary (M mc : Nat) (hM : M < 2 ^ 28) :
    ∃ s', Ecs.newEntities (Ecs.init M mc) M
        = .ok ((List.range' 1 M).map (fun i => ⟨1, 0, i⟩), s')
      ∧ Ecs.newEntity s' = .error .capacityExceeded := by
  obtain ⟨s', hrun, hnf, hlive, hmax⟩ :=
    newEntities_fresh M 0 (Ecs.init M mc) rfl rfl (by simp [Ecs.init])
      (by simpa [Ecs.init] using hM)
  refine ⟨s', by simpa using hrun, ?_⟩
  unfold Ecs.newEntity
  rw [hnf]
  rw [if_neg (by omega)]
  rw [if_neg (by simp [Ecs.init] at hmax; omega)]

/-- Witness for claim C7's theorem at capacity 3. -/
theorem newEntity_capacity_boundary_witness :
    (3 : Nat) < 2 ^ 28
    ∧ ∃ s', Ecs.newEntities (Ecs.init 3 2) 3
          = .ok ((List.range' 1 3).map (fun i => ⟨1, 0, i⟩), s')
        ∧ Ecs.newEntity s' = .error .capacityExceeded :=
  ⟨by decide, newEntity_capacity_boundary 3 2 (by decide)⟩

/-- Claim C8: when a valid entity already holds a component of the requested
type (its sparse slot is a valid nonzero handle, whose dense chunk is
allocated), a second addComponent returns exactly that handle and leaves the
whole Ecs state — container bookkeeping, free list, and all data —
untouched: re-add is idempotent. -/
theorem addComponent_readd_idempotent (s : EcsState) (e : EntityHandle)
    (ty n : Nat)
    (hn : ¬ n < 8)
    (hv : Ecs.isEntityHandleValid s e = true)
    (hcs : ¬ (s.containers ty).componentSize = 0)
    (chunk : Nat → Nat)
    (hchunk : (s.containers ty).sparseIds (e.id / (s.containers ty).idChunkSize)
        = some chunk)
    (hvalid : isComponentHandleValid
        (chunk (e.id % (s.containers ty).idChunkSize)) = true)
    (d : Nat → Nat)
    (hdense : (s.containers ty).denseData
        (chunk (e.id % (s.containers ty).idChunkSize) / (s.containers ty).chunkSize)
        = some d) :
    Ecs.addComponent s e ty n
      = .ok (chunk (e.id % (s.containers ty).idChunkSize), s) := by
  unfold Ecs.addComponent
  rw [if_neg (by omega : ¬ n < 4), if_pos hv]
  simp only [if_neg hcs, hchunk, if_pos hvalid, hdense]

/-- Witness for claim C8's theorem: one entity holding component 1; the
second addComponent returns handle 1 and the state unchanged. -/
theorem addComponent_readd_idempotent_witness :
    Ecs.isEntityHandleValid readdS ⟨1, 0, 1⟩ = true
    ∧ Ecs.addComponent readdS ⟨1, 0, 1⟩ 1 8 = .ok (1, readdS) :=
  ⟨by decide,
    addComponent_readd_idempotent readdS ⟨1, 0, 1⟩ 1 8 (by decide) (by decide)
      (by decide) (upd (fun _ => 0) 1 1) rfl (by decide) (fun _ => 0) rfl⟩

/-- Claim C9 (counterexample): in the two-entity removal scenario, the
vacated tail entry of the dense entity array (index 2, the old
aliveComponents) still holds entity 2's handle after the removal — it is not
cleared — and the pushed next-free link (value 0, the old head) is stored as
a 4-byte word at chunk byte offset 1 (the freed slot number, unscaled), not
inside the freed slot's own component bytes at offsets 8..15, whose first
word still reads the caller's value 257 rather than the link. -/
theorem removeComponent_leaves_tail_entry :
    (rmPre.containers 1).aliveComponents = 2
    ∧ (rmPre.containers 1).denseEntityGet 2 = ⟨1, 0, 2⟩
    ∧ (rmPost.containers 1).aliveComponents = 1
    ∧ (rmPost.containers 1).denseEntityGet 2 = ⟨1, 0, 2⟩
    ∧ (rmPost.containers 1).freeComponentHandle = 1
    ∧ readBytesLE ((rmPost.containers 1).dataChunk 0) 1 4 = 0
    ∧ readBytesLE ((rmPost.containers 1).dataChunk 0) 8 4 = 257 := by decide

/-- Claim C9 (amended): removeComponent is a no-op when the entity is
invalid, the container unused, the sparse chunk absent, or the sparse slot
zero/invalid.  Otherwise it overwrites the freed slot's dense entity-array
entry with the entry at index aliveComponents, leaves the vacated tail entry
in place (not cleared), zeroes the entity's sparse entry, decrements
aliveComponents, and pushes the freed slot onto the free list, writing the
next-free link as a 4-byte word at byte offset (slot % chunkSize) of the
slot's dense-data chunk (unscaled by componentSize); no other container and
no entity slot changes. -/
theorem removeComponent_swap_and_free_effect (s : EcsState) (e : EntityHandle)
    (ty : Nat) :
    (Ecs.isEntityHandleValid s e = false → Ecs.removeComponent s e ty = s)
    ∧ ((s.containers ty).componentSize = 0 → Ecs.removeComponent s e ty = s)
    ∧ ((s.containers ty).sparseIds (e.id / (s.containers ty).idChunkSize) = none →
        Ecs.removeComponent s e ty = s)
    ∧ (∀ chunk : Nat → Nat,
        (s.containers ty).sparseIds (e.id / (s.containers ty).idChunkSize)
            = some chunk →
        isComponentHandleValid (chunk (e.id % (s.containers ty).idChunkSize))
            = false →
        Ecs.removeComponent s e ty = s)
    ∧ (∀ (chunk : Nat → Nat) (dents : Nat → EntityHandle) (data : Nat → Nat),
        Ecs.isEntityHandleValid s e = true →
        (s.containers ty).componentSize ≠ 0 →
        (s.containers ty).sparseIds (e.id / (s.containers ty).idChunkSize)
            = some chunk →
        isComponentHandleValid (chunk (e.id % (s.containers ty).idChunkSize))
            = true →
        (s.containers ty).denseEntities
            (chunk (e.id % (s.containers ty).idChunkSize)
              / (s.containers ty).chunkSize) = some dents →
        (s.containers ty).denseData
            (chunk (e.id % (s.containers ty).idChunkSize)
              / (s.containers ty).chunkSize) = some data →
        ((Ecs.removeComponent s e ty).containers ty).aliveComponents
            = (s.containers ty).aliveComponents - 1
        ∧ ((Ecs.removeComponent s e ty).containers ty).freeComponentHandle
            = chunk (e.id % (s.containers ty).idChunkSize)
        ∧ ((Ecs.removeComponent s e ty).containers ty).sparseIds
              (e.id / (s.containers ty).idChunkSize)
            = some (upd chunk (e.id % (s.containers ty).idChunkSize) 0)
        ∧ ((Ecs.removeComponent s e ty).containers ty).denseEntities
              (chunk (e.id % (s.containers ty).idChunkSize)
                / (s.containers ty).chunkSize)
            = some (upd dents
                (chunk (e.id % (s.containers ty).idChunkSize)
                  % (s.containers ty).chunkSize)
                ((s.containers ty).denseEntityGet (s.containers ty).aliveComponents))
        ∧ ((Ecs.removeComponent s e ty).containers ty).denseData
              (chunk (e.id % (s.containers ty).idChunkSize)
                / (s.containers ty).chunkSize)
            = some (writeBytesLE data
                (chunk (e.id % (s.containers ty).idChunkSize)
                  % (s.containers ty).chunkSize)
                ((s.containers ty).freeComponentHandle) 4)
        ∧ ((Ecs.removeComponent s e ty).containers ty).denseEntityGet
              ((s.containers ty).aliveComponents)
            = (s.containers ty).denseEntityGet ((s.containers ty).aliveComponents)
        ∧ (∀ ty2, ty2 ≠ ty →
            (Ecs.removeComponent s e ty).containers ty2 = s.containers ty2)
        ∧ (Ecs.removeComponent s e ty).entities = s.entities) := by
  refine ⟨?_, ?_, ?_, ?_, ?_⟩
  · intro hv
    simp [Ecs.removeComponent, hv]
  · intro hcs0
    by_cases hv : Ecs.isEntityHandleValid s e = true
    · simp [Ecs.removeComponent, hv, Ecs.removeComponentOfExistingEntity, hcs0]
    · simp [Ecs.removeComponent, hv]
  · intro hnone
    by_cases hv : Ecs.isEntityHandleValid s e = true
    · by_cases hcs0 : (s.containers ty).componentSize = 0
      · simp [Ecs.removeComponent, hv, Ecs.removeComponentOfExistingEntity, hcs0]
      · simp [Ecs.removeComponent, hv, Ecs.removeComponentOfExistingEntity,
          hcs0, hnone]
    · simp [Ecs.removeComponent, hv]
  · intro chunk hchunk hvd
    by_cases hv : Ecs.isEntityHandleValid s e = true
    · by_cases hcs0 : (s.containers ty).componentSize = 0
      · simp [Ecs.removeComponent, hv, Ecs.removeComponentOfExistingEntity, hcs0]
      · simp [Ecs.removeComponent, hv, Ecs.removeComponentOfExistingEntity,
          hcs0, hchunk, hvd]
    · simp [Ecs.removeComponent, hv]
  · intro chunk dents data hv hcs hchunk hvalid hde hdd
    simp only [Ecs.removeComponent, if_pos hv, Ecs.removeComponentOfExistingEntity,
      if_neg hcs, hchunk, if_pos hvalid, setContainer_self]
    refine ⟨rfl, rfl, ?_, ?_, ?_, ?_, ?_, rfl⟩
    · simp only [ComponentContainer.setSparse,
        ComponentContainer.replaceDenseComponentFreeIndex,
        ComponentContainer.denseEntitySet]
      rw [upd_eq, hchunk]
      rfl
    · simp only [ComponentContainer.setSparse,
        ComponentContainer.replaceDenseComponentFreeIndex,
        ComponentContainer.denseEntitySet]
      rw [upd_eq, hde]
      rfl
    · simp only [ComponentContainer.setSparse,
        ComponentContainer.replaceDenseComponentFreeIndex,
        ComponentContainer.denseEntitySet, ComponentContainer.dataChunk]
      rw [upd_eq, hdd]
      rfl
    · refine Eq.trans (denseEntityGet_congr
        ((s.containers ty).denseEntitySet
          (chunk (e.id % (s.containers ty).idChunkSize))
          ((s.containers ty).denseEntityGet (s.containers ty).aliveComponents))
        _ rfl rfl _) ?_
      rw [denseEntityGet_denseEntitySet]
      split
      · rfl
      · rfl
    · intro ty2 hty2
      exact setContainer_other _ _ hty2

/-- Claim C10 (counterexample): nine entities each hold component 1 (8
bytes) with value 257.  Removing entity 9's component (dense slot 9) writes
its 4-byte next-free word at chunk byte offset 9, i.e. bytes 9..12 — inside
entity 1's slot (bytes 8..15) — so entity 1's component data changes from
257 to 1 even though entity 1 keeps its slot and its component was never
touched by the call (entity 2, whose slot starts at byte 16, is outside the
window and keeps 257). -/
theorem removeComponent_clobbers_other_slots :
    Ecs.getExistingEntityComponentHandle clobPre 1 1 = 1
    ∧ Ecs.getExistingEntityComponentHandle clobPre 2 1 = 2
    ∧ Ecs.getExistingEntityComponentHandle clobPre 9 1 = 9
    ∧ Ecs.readComponentData clobPre 1 1 = 257
    ∧ Ecs.readComponentData clobPre 1 2 = 257
    ∧ Ecs.getExistingEntityComponentHandle clobPost 1 1 = 1
    ∧ Ecs.getExistingEntityComponentHandle clobPost 2 1 = 2
    ∧ Ecs.readComponentData clobPost 1 1 = 1
    ∧ Ecs.readComponentData clobPost 1 2 = 257 := by decide

/-- Claim C10 (amended): component data is never copied or moved between
dense slots.  removeComponent leaves every dense-data byte unchanged except
the 4-byte next-free word at byte offset (freedHandle % chunkSize) of chunk
(freedHandle / chunkSize) — a window that, being unscaled by componentSize,
can overlap other slots' bytes — and rewrites no dense entity entry other
than the freed slot's; addComponent never rewrites any byte of an
already-allocated dense-data chunk. -/
theorem component_bytes_frame (s : EcsState) (e : EntityHandle) (ty : Nat) :
    (∀ ci d, (s.containers ty).denseData ci = some d →
      ∃ d', ((Ecs.removeComponent s e ty).containers ty).denseData ci = some d'
        ∧ ∀ i, (ci ≠ Ecs.getExistingEntityComponentHandle s e.id ty
                  / (s.containers ty).chunkSize
                ∨ i < Ecs.getExistingEntityComponentHandle s e.id ty
                  % (s.containers ty).chunkSize
                ∨ Ecs.getExistingEntityComponentHandle s e.id ty
                  % (s.containers ty).chunkSize + 4 ≤ i) →
            d' i = d i)
    ∧ (∀ i, (i / (s.containers ty).chunkSize
              ≠ Ecs.getExistingEntityComponentHandle s e.id ty
                / (s.containers ty).chunkSize
            ∨ i % (s.containers ty).chunkSize
              ≠ Ecs.getExistingEntityComponentHandle s e.id ty
                % (s.containers ty).chunkSize) →
        ((Ecs.removeComponent s e ty).containers ty).denseEntityGet i
          = (s.containers ty).denseEntityGet i)
    ∧ ((s.containers ty).componentSize ≠ 0 →
        ∀ n h' s', Ecs.addComponent s e ty n = .ok (h', s') →
          ∀ ci d, (s.containers ty).denseData ci = some d →
            (s'.containers ty).denseData ci = some d) := by
  have hmain : Ecs.removeComponent s e ty = s ∨
      ∃ chunk : Nat → Nat,
        Ecs.getExistingEntityComponentHandle s e.id ty
            = chunk (e.id % (s.containers ty).idChunkSize)
        ∧ Ecs.removeComponent s e ty = s.setContainer ty
            (let c := s.containers ty
             let possible := chunk (e.id % c.idChunkSize)
             let c1 := c.replaceDenseComponentFreeIndex possible
             let c2 := c1.setSparse (e.id / c.idChunkSize) (e.id % c.idChunkSize) 0
             { c2 with aliveComponents := c2.aliveComponents - 1 }) := by
    by_cases hv : Ecs.isEntityHandleValid s e = true
    · by_cases hcs : (s.containers ty).componentSize = 0
      · exact .inl (by simp only [Ecs.removeComponent, if_pos hv,
          Ecs.removeComponentOfExistingEntity, if_pos hcs])
      · rcases hchunk : (s.containers ty).sparseIds
            (e.id / (s.containers ty).idChunkSize) with _ | chunk
        · exact .inl (by simp only [Ecs.removeComponent, if_pos hv,
            Ecs.removeComponentOfExistingEntity, if_neg hcs, hchunk])
        · by_cases hvd : isComponentHandleValid
              (chunk (e.id % (s.containers ty).idChunkSize)) = true
          · refine .inr ⟨chunk, ?_, ?_⟩
            · simp only [Ecs.getExistingEntityComponentHandle, if_neg hcs, hchunk]
            · simp only [Ecs.removeComponent, if_pos hv,
                Ecs.removeComponentOfExistingEntity, if_neg hcs, hchunk,
                if_pos hvd]
          · exact .inl (by simp only [Ecs.removeComponent, if_pos hv,
              Ecs.removeComponentOfExistingEntity, if_neg hcs, hchunk,
              if_neg hvd])
    · exact .inl (by simp only [Ecs.removeComponent, if_neg hv])
  refine ⟨?_, ?_, fun hcs n h' s' heq ci d hd =>
    addComponent_data_frame s e ty hcs n h' s' heq ci d hd⟩
  · rcases hmain with heq | ⟨chunk, hh, heq⟩
    · rw [heq]
      exact fun ci d hd => ⟨d, hd, fun i _ => rfl⟩
    · rw [heq, setContainer_self, hh]
      intro ci d hd
      by_cases hci : ci = chunk (e.id % (s.containers ty).idChunkSize)
          / (s.containers ty).chunkSize
      · subst hci
        refine ⟨writeBytesLE
            ((s.containers ty).dataChunk
              (chunk (e.id % (s.containers ty).idChunkSize)
                / (s.containers ty).chunkSize))
            (chunk (e.id % (s.containers ty).idChunkSize)
              % (s.containers ty).chunkSize)
            ((s.containers ty).freeComponentHandle) 4, ?_, ?_⟩
        · simp only [ComponentContainer.setSparse,
            ComponentContainer.replaceDenseComponentFreeIndex,
            ComponentContainer.denseEntitySet, ComponentContainer.dataChunk]
          rw [upd_eq]
        · intro i hi
          have hout : ¬ (chunk (e.id % (s.containers ty).idChunkSize)
                % (s.containers ty).chunkSize ≤ i
              ∧ i < chunk (e.id % (s.containers ty).idChunkSize)
                % (s.containers ty).chunkSize + 4) := by
            rcases hi with hi | hi | hi
            · exact absurd rfl hi
            · omega
            · omega
          unfold writeBytesLE
          rw [if_neg hout]
          simp only [ComponentContainer.dataChunk, hd, Option.getD_some]
      · refine ⟨d, ?_, fun i _ => rfl⟩
        simp only [ComponentContainer.setSparse,
          ComponentContainer.replaceDenseComponentFreeIndex,
          ComponentContainer.denseEntitySet]
        rw [upd_ne _ _ hci]
        exact hd
  · rcases hmain with heq | ⟨chunk, hh, heq⟩
    · rw [heq]
      exact fun i _ => rfl
    · rw [heq, setContainer_self, hh]
      intro i hi
      refine Eq.trans (denseEntityGet_congr
        ((s.containers ty).denseEntitySet
          (chunk (e.id % (s.containers ty).idChunkSize))
          ((s.containers ty).denseEntityGet (s.containers ty).aliveComponents))
        _ rfl rfl _) ?_
      rw [denseEntityGet_denseEntitySet]
      have hcond : ¬ (i / (s.containers ty).chunkSize
            = chunk (e.id % (s.containers ty).idChunkSize)
              / (s.containers ty).chunkSize
          ∧ i % (s.containers ty).chunkSize
            = chunk (e.id % (s.containers ty).idChunkSize)
              % (s.containers ty).chunkSize) := by
        rcases hi with hi | hi
        · exact fun hc => hi hc.1
        · exact fun hc => hi hc.2
      rw [if_neg hcond]

end Tecs
